import Mathlib

/-!
Verification of the telemetry buffering and tiered-transmission pipeline of
`hardware/hive_monitor_v1.py` (class `HiveMonitor`), via a shallow embedding.

Python values appearing in sensor readings are modelled by `Val`; a reading
(a Python dict with insertion order) is an association list.  Fallible calls
into drivers, the network and the filesystem are modelled as functions
returning `Except PyErr _`; a Python `try/except Exception` block is a match
on that result.
-/

/-- A Python exception, identified by its message. -/
structure PyErr where
  msg : String
deriving DecidableEq, Repr

/-- A JSON-serialisable Python value as stored in a sensor reading dict. -/
inductive Val where
  | num (n : Int)
  | str (s : String)
  | null
deriving DecidableEq, Repr

/-- A sensor reading: a Python dict in insertion order (keys to values). -/
def Reading := List (String × Val)

instance : DecidableEq Reading := by
  unfold Reading
  infer_instance

instance : Append Reading := ⟨List.append⟩

instance : Membership (String × Val) Reading := ⟨fun r p => List.Mem p r⟩

/-- `d[k]` as `Option`: first binding of key `k` in dict `d` (Python dicts
have unique keys; the model keeps the first binding, matching `dict.get`). -/
def lookupK (k : String) : List (String × Val) → Option Val
  | [] => none
  | (k', v) :: rest => if k' = k then some v else lookupK k rest

/-- Python `data.get(key, 0)`. -/
def pyGet (r : List (String × Val)) (k : String) : Val :=
  (lookupK k r).getD (Val.num 0)

/-- The dict `essential_data` built by `HiveMonitor.compress_sensor_data`:
exactly the four priority fields, defaulting to `0` when absent. -/
def compressFields (data : List (String × Val)) : List (String × Val) :=
  [("t", pyGet data "temperature_c"),
   ("h", pyGet data "humidity_percent"),
   ("w", pyGet data "weight_kg"),
   ("b", pyGet data "bee_count")]

/-- `json.dumps` rendering of one value. -/
def renderVal : Val → String
  | Val.num n => toString n
  | Val.str s => "\"" ++ s ++ "\""
  | Val.null => "null"

/-- `json.dumps` of a dict with the default separators. -/
def jsonRender (fields : List (String × Val)) : String :=
  "\x7b" ++
    String.intercalate ", "
      (fields.map (fun p => "\"" ++ p.1 ++ "\": " ++ renderVal p.2)) ++
  "\x7d"

/-- `HiveMonitor.compress_sensor_data`: the reduced (narrowband) encoding,
`json.dumps(essential_data).encode()` modelled as the rendered string. -/
def compress_sensor_data (data : List (String × Val)) : String :=
  jsonRender (compressFields data)

/-- The payload handed to `requests.post(..., json=data, ...)` by
`HiveMonitor.transmit_via_http`: the full reading, unreduced. -/
def httpPayload (data : Reading) : Reading := data

/-- The four source keys the reduced encoding reads. -/
def priorityKeys : List String :=
  ["temperature_c", "humidity_percent", "weight_kg", "bee_count"]

-- Sanity examples on concrete inputs.
example :
    compress_sensor_data [("temperature_c", Val.num 21), ("extra", Val.num 5)] =
      "\x7b\"t\": 21, \"h\": 0, \"w\": 0, \"b\": 0\x7d" := by
  decide

example :
    compress_sensor_data [] = "\x7b\"t\": 0, \"h\": 0, \"w\": 0, \"b\": 0\x7d" := by
  decide

@[simp]
theorem lookupK_cons (k k' : String) (v : Val) (rest : List (String × Val)) :
    lookupK k ((k', v) :: rest) = if k' = k then some v else lookupK k rest := rfl

/-- Sample readings used by witnesses. -/
def sampleR : Reading :=
  [("timestamp", Val.str "2025-06-01T12:00:00"), ("hive_id", Val.str "hive_001"),
   ("temperature_c", Val.num 30), ("humidity_percent", Val.num 55),
   ("sound_level_db", Val.num 62), ("bee_count", Val.num 240)]

/-- A reading agreeing with `sampleR` on the four priority keys only. -/
def sampleRAgree : Reading :=
  [("humidity_percent", Val.num 55), ("temperature_c", Val.num 30),
   ("bee_count", Val.num 240), ("internal_temperature_c", Val.num 33)]

/-- C5: the reduced encoding contains exactly the four priority fields
(temperature, humidity, weight, bee count) mapped to `t`/`h`/`w`/`b`, and
nothing else: its keys are exactly `["t","h","w","b"]`, each carries the
corresponding source measurement, and the whole payload depends only on the
four priority keys of the reading; the full (HTTP) encoding carries the
entire reading unchanged. -/
theorem reduced_fields_exact (data : Reading) :
    (compressFields data).map Prod.fst = ["t", "h", "w", "b"] ∧
    lookupK "t" (compressFields data) = some (pyGet data "temperature_c") ∧
    lookupK "h" (compressFields data) = some (pyGet data "humidity_percent") ∧
    lookupK "w" (compressFields data) = some (pyGet data "weight_kg") ∧
    lookupK "b" (compressFields data) = some (pyGet data "bee_count") ∧
    (∀ data' : Reading,
      (∀ k, k ∈ priorityKeys → lookupK k data' = lookupK k data) →
        compress_sensor_data data' = compress_sensor_data data) ∧
    httpPayload data = data := by
  refine ⟨rfl, rfl, rfl, rfl, rfl, ?_, rfl⟩
  intro d h
  unfold compress_sensor_data compressFields pyGet
  rw [h "temperature_c" (by decide), h "humidity_percent" (by decide),
      h "weight_kg" (by decide), h "bee_count" (by decide)]

/-- Witness for C5 at concrete readings. -/
theorem reduced_fields_exact_witness :
    (compressFields sampleR).map Prod.fst = ["t", "h", "w", "b"] ∧
    compress_sensor_data sampleRAgree = compress_sensor_data sampleR :=
  ⟨(reduced_fields_exact sampleR).1,
   (reduced_fields_exact sampleR).2.2.2.2.2.1 sampleRAgree (by decide)⟩

/-- C6: encoding is deterministic — the reduced encoder is a pure function,
so encoding the same reading twice yields byte-identical payloads, and equal
readings yield byte-identical payloads. -/
theorem encode_deterministic (b1 b2 : Reading) (h : b1 = b2) :
    compress_sensor_data b1 = compress_sensor_data b2 ∧
    compress_sensor_data b1 = compress_sensor_data b1 :=
  ⟨by rw [h], rfl⟩

/-- Witness for C6 at a concrete reading. -/
theorem encode_deterministic_witness :
    compress_sensor_data sampleR = compress_sensor_data sampleR :=
  (encode_deterministic sampleR sampleR rfl).1

/-- A reading with no temperature measurement. -/
def sampleRNoTemp : Reading :=
  [("hive_id", Val.str "hive_001"), ("humidity_percent", Val.num 55),
   ("bee_count", Val.num 240)]

/-- C9: in the reduced encoding a missing priority measurement is replaced by
the number `0` (`data.get(key, 0)`), so the payload of a reading missing that
key is byte-identical to the payload of the same reading carrying an explicit
`0` for it. -/
theorem reduced_missing_is_zero (data : Reading) (k : String)
    (hk : k ∈ priorityKeys) (habs : lookupK k data = none) :
    pyGet data k = Val.num 0 ∧
    compress_sensor_data data = compress_sensor_data ((k, Val.num 0) :: data) := by
  constructor
  · unfold pyGet
    rw [habs]
    rfl
  · simp only [priorityKeys, List.mem_cons, List.mem_singleton,
      List.not_mem_nil, or_false] at hk
    rcases hk with rfl | rfl | rfl | rfl <;>
      simp [compress_sensor_data, compressFields, pyGet, habs]

/-- Witness for C9: a reading lacking `temperature_c` encodes identically to
the same reading with `temperature_c = 0`. -/
theorem reduced_missing_is_zero_witness :
    pyGet sampleRNoTemp "temperature_c" = Val.num 0 ∧
    compress_sensor_data sampleRNoTemp =
      compress_sensor_data (("temperature_c", Val.num 0) :: sampleRNoTemp) :=
  reduced_missing_is_zero sampleRNoTemp "temperature_c" (by decide) (by decide)

/-- Outcome of touching one hardware sensor in `HiveMonitor.read_sensors`:
the sensor object may be `None` (`absent`), the read may throw (`raised`),
or it returns a value. -/
inductive SensorRead (α : Type) where
  | absent
  | raised
  | ok (v : α)
deriving DecidableEq

/-- The per-tick sensor environment seen by `HiveMonitor.read_sensors`.
`dht` yields the DHT22 pair (temperature, humidity), each possibly `None`;
`sound` and `bees` model `analyze_sound` / `count_bees`, which catch their
own errors and return `None` on any failure. -/
structure SensorInputs where
  dht : SensorRead (Option Int × Option Int)
  weight : SensorRead Int
  itemp : SensorRead Int
  sound : Option (Int × Int × String)
  bees : Option Int
deriving DecidableEq

/-- Keys contributed by the DHT22 block: both are added only when the read
succeeded and neither value is `None`; otherwise neither is added. -/
def dhtSegment : SensorRead (Option Int × Option Int) → List (String × Val)
  | SensorRead.ok (some t, some h) =>
      [("temperature_c", Val.num t), ("humidity_percent", Val.num h)]
  | _ => []

/-- Keys contributed by the HX711 weight block. -/
def weightSegment : SensorRead Int → List (String × Val)
  | SensorRead.ok w => [("weight_kg", Val.num w)]
  | _ => []

/-- Keys contributed by the DS18B20 internal-temperature block. -/
def itempSegment : SensorRead Int → List (String × Val)
  | SensorRead.ok v => [("internal_temperature_c", Val.num v)]
  | _ => []

/-- Keys merged from `analyze_sound` (`readings.update(sound_data)`). -/
def soundSegment : Option (Int × Int × String) → List (String × Val)
  | some (lvl, freq, act) =>
      [("sound_level_db", Val.num lvl), ("dominant_frequency_hz", Val.num freq),
       ("activity_level", Val.str act)]
  | none => []

/-- Key contributed by `count_bees`. -/
def beesSegment : Option Int → List (String × Val)
  | some b => [("bee_count", Val.num b)]
  | none => []

/-- `HiveMonitor.read_sensors`: stamps timestamp and hive id, then admits
whichever measurements succeeded, in source order. -/
def read_sensors (ts hive : String) (s : SensorInputs) : Reading :=
  ("timestamp", Val.str ts) :: ("hive_id", Val.str hive) ::
    (dhtSegment s.dht ++ (weightSegment s.weight ++ (itempSegment s.itemp ++
      (soundSegment s.sound ++ beesSegment s.bees))))

/-- One of the five sensor blocks of `read_sensors`. -/
inductive SensorBlock where
  | dht
  | weight
  | itemp
  | sound
  | bees
deriving DecidableEq

/-- Make exactly one sensor block fail (driver raise, or `None` result for
the blocks that already swallow their errors). -/
def failSensor : SensorBlock → SensorInputs → SensorInputs
  | SensorBlock.dht, ⟨_, w, t, so, b⟩ => ⟨SensorRead.raised, w, t, so, b⟩
  | SensorBlock.weight, ⟨d, _, t, so, b⟩ => ⟨d, SensorRead.raised, t, so, b⟩
  | SensorBlock.itemp, ⟨d, w, _, so, b⟩ => ⟨d, w, SensorRead.raised, so, b⟩
  | SensorBlock.sound, ⟨d, w, t, _, b⟩ => ⟨d, w, t, none, b⟩
  | SensorBlock.bees, ⟨d, w, t, so, _⟩ => ⟨d, w, t, so, none⟩

/-- The reading keys each sensor block can contribute. -/
def sensorKeys : SensorBlock → List String
  | SensorBlock.dht => ["temperature_c", "humidity_percent"]
  | SensorBlock.weight => ["weight_kg"]
  | SensorBlock.itemp => ["internal_temperature_c"]
  | SensorBlock.sound => ["sound_level_db", "dominant_frequency_hz", "activity_level"]
  | SensorBlock.bees => ["bee_count"]

/-- First-match choice of two lookups, for splitting `lookupK` over `++`. -/
def optOr : Option Val → Option Val → Option Val
  | some v, _ => some v
  | none, o => o

@[simp]
theorem lookupK_append (k : String) (xs ys : List (String × Val)) :
    lookupK k (xs ++ ys) = optOr (lookupK k xs) (lookupK k ys) := by
  induction xs with
  | nil => rfl
  | cons p rest ih =>
      obtain ⟨k', v⟩ := p
      by_cases h : k' = k <;> simp [lookupK, h, ih, optOr]

theorem lookupK_dhtSegment_ne (k : String) (h1 : k ≠ "temperature_c")
    (h2 : k ≠ "humidity_percent") (d : SensorRead (Option Int × Option Int)) :
    lookupK k (dhtSegment d) = none := by
  rcases d with _ | _ | ⟨_ | t, _ | h⟩ <;>
    simp [dhtSegment, lookupK, Ne.symm h1, Ne.symm h2]

theorem lookupK_weightSegment_ne (k : String) (h1 : k ≠ "weight_kg")
    (w : SensorRead Int) : lookupK k (weightSegment w) = none := by
  rcases w with _ | _ | w <;> simp [weightSegment, lookupK, Ne.symm h1]

theorem lookupK_itempSegment_ne (k : String) (h1 : k ≠ "internal_temperature_c")
    (t : SensorRead Int) : lookupK k (itempSegment t) = none := by
  rcases t with _ | _ | t <;> simp [itempSegment, lookupK, Ne.symm h1]

theorem lookupK_soundSegment_ne (k : String) (h1 : k ≠ "sound_level_db")
    (h2 : k ≠ "dominant_frequency_hz") (h3 : k ≠ "activity_level")
    (so : Option (Int × Int × String)) : lookupK k (soundSegment so) = none := by
  rcases so with _ | ⟨lvl, freq, act⟩ <;>
    simp [soundSegment, lookupK, Ne.symm h1, Ne.symm h2, Ne.symm h3]

theorem lookupK_beesSegment_ne (k : String) (h1 : k ≠ "bee_count")
    (b : Option Int) : lookupK k (beesSegment b) = none := by
  rcases b with _ | b <;> simp [beesSegment, lookupK, Ne.symm h1]

theorem lookupK_read_sensors (ts hive k : String) (s : SensorInputs) :
    lookupK k (read_sensors ts hive s) =
      (if "timestamp" = k then some (Val.str ts) else
       if "hive_id" = k then some (Val.str hive) else
       optOr (lookupK k (dhtSegment s.dht))
         (optOr (lookupK k (weightSegment s.weight))
           (optOr (lookupK k (itempSegment s.itemp))
             (optOr (lookupK k (soundSegment s.sound))
               (lookupK k (beesSegment s.bees)))))) := by
  simp [read_sensors, lookupK]

theorem dhtSegment_no_null (d : SensorRead (Option Int × Option Int)) :
    ∀ kv ∈ dhtSegment d, kv.2 ≠ Val.null := by
  rcases d with _ | _ | ⟨_ | t, _ | h⟩ <;> simp [dhtSegment]

theorem weightSegment_no_null (w : SensorRead Int) :
    ∀ kv ∈ weightSegment w, kv.2 ≠ Val.null := by
  rcases w with _ | _ | w <;> simp [weightSegment]

theorem itempSegment_no_null (t : SensorRead Int) :
    ∀ kv ∈ itempSegment t, kv.2 ≠ Val.null := by
  rcases t with _ | _ | t <;> simp [itempSegment]

theorem soundSegment_no_null (so : Option (Int × Int × String)) :
    ∀ kv ∈ soundSegment so, kv.2 ≠ Val.null := by
  rcases so with _ | ⟨lvl, freq, act⟩ <;> simp [soundSegment]

theorem beesSegment_no_null (b : Option Int) :
    ∀ kv ∈ beesSegment b, kv.2 ≠ Val.null := by
  rcases b with _ | b <;> simp [beesSegment]

theorem read_sensors_no_null (ts hive : String) (s : SensorInputs) :
    ∀ kv, kv ∈ read_sensors ts hive s → kv.2 ≠ Val.null := by
  intro kv hkv
  rcases List.mem_cons.1 hkv with rfl | hkv
  · simp
  rcases List.mem_cons.1 hkv with rfl | hkv
  · simp
  rcases List.mem_append.1 hkv with h | hkv
  · exact dhtSegment_no_null _ _ h
  rcases List.mem_append.1 hkv with h | hkv
  · exact weightSegment_no_null _ _ h
  rcases List.mem_append.1 hkv with h | hkv
  · exact itempSegment_no_null _ _ h
  rcases List.mem_append.1 hkv with h | hkv
  · exact soundSegment_no_null _ _ h
  · exact beesSegment_no_null _ _ hkv

/-- C7: per-sensor failure isolation in `read_sensors`.  Failing one sensor
block makes exactly its own keys absent from the reading, leaves the lookup
of every other key unchanged, never introduces a null placeholder, and the
reading is always stamped with the timestamp and the hive id. -/
theorem read_sensors_partial_failure (ts hive : String) (s : SensorInputs)
    (i : SensorBlock) (k : String) :
    (k ∈ sensorKeys i →
      lookupK k (read_sensors ts hive (failSensor i s)) = none) ∧
    (k ∉ sensorKeys i →
      lookupK k (read_sensors ts hive (failSensor i s)) =
        lookupK k (read_sensors ts hive s)) ∧
    (∀ v, (k, v) ∈ read_sensors ts hive s → v ≠ Val.null) ∧
    lookupK "timestamp" (read_sensors ts hive s) = some (Val.str ts) ∧
    lookupK "hive_id" (read_sensors ts hive s) = some (Val.str hive) := by
  obtain ⟨d, w, t, so, b⟩ := s
  refine ⟨?_, ?_, fun v hv => read_sensors_no_null ts hive _ (k, v) hv, ?_, ?_⟩
  · intro hk
    cases i <;>
      simp only [sensorKeys, List.mem_cons, List.mem_singleton,
        List.not_mem_nil, or_false] at hk
    case dht =>
      rcases hk with rfl | rfl <;>
        simp [failSensor, lookupK_read_sensors, dhtSegment, lookupK, optOr,
          lookupK_weightSegment_ne, lookupK_itempSegment_ne,
          lookupK_soundSegment_ne, lookupK_beesSegment_ne]
    case weight =>
      rcases hk with rfl
      simp [failSensor, lookupK_read_sensors, weightSegment, lookupK, optOr,
        lookupK_dhtSegment_ne, lookupK_itempSegment_ne,
        lookupK_soundSegment_ne, lookupK_beesSegment_ne]
    case itemp =>
      rcases hk with rfl
      simp [failSensor, lookupK_read_sensors, itempSegment, lookupK, optOr,
        lookupK_dhtSegment_ne, lookupK_weightSegment_ne,
        lookupK_soundSegment_ne, lookupK_beesSegment_ne]
    case sound =>
      rcases hk with rfl | rfl | rfl <;>
        simp [failSensor, lookupK_read_sensors, soundSegment, lookupK, optOr,
          lookupK_dhtSegment_ne, lookupK_weightSegment_ne,
          lookupK_itempSegment_ne, lookupK_beesSegment_ne]
    case bees =>
      rcases hk with rfl
      simp [failSensor, lookupK_read_sensors, beesSegment, lookupK, optOr,
        lookupK_dhtSegment_ne, lookupK_weightSegment_ne,
        lookupK_itempSegment_ne, lookupK_soundSegment_ne]
  · intro hk
    cases i <;>
      simp only [sensorKeys, List.mem_cons, List.mem_singleton,
        List.not_mem_nil, or_false, not_or] at hk
    case dht =>
      obtain ⟨h1, h2⟩ := hk
      rw [lookupK_read_sensors, lookupK_read_sensors]
      simp only [failSensor, lookupK_dhtSegment_ne k h1 h2]
    case weight =>
      rw [lookupK_read_sensors, lookupK_read_sensors]
      simp only [failSensor, lookupK_weightSegment_ne k hk]
    case itemp =>
      rw [lookupK_read_sensors, lookupK_read_sensors]
      simp only [failSensor, lookupK_itempSegment_ne k hk]
    case sound =>
      obtain ⟨h1, h2, h3⟩ := hk
      rw [lookupK_read_sensors, lookupK_read_sensors]
      simp only [failSensor, lookupK_soundSegment_ne k h1 h2 h3]
    case bees =>
      rw [lookupK_read_sensors, lookupK_read_sensors]
      simp only [failSensor, lookupK_beesSegment_ne k hk]
  · rw [lookupK_read_sensors]
    simp
  · rw [lookupK_read_sensors]
    simp

/-- A fully healthy sensor environment, for witnesses. -/
def sAll : SensorInputs :=
  ⟨SensorRead.ok (some 30, some 55), SensorRead.ok 42, SensorRead.ok 33,
   some (62, 250, "medium"), some 240⟩

/-- Witness for C7: failing the weight sensor removes `weight_kg` and leaves
`bee_count` untouched. -/
theorem read_sensors_partial_failure_witness :
    lookupK "weight_kg"
        (read_sensors "T" "H" (failSensor SensorBlock.weight sAll)) = none ∧
    lookupK "bee_count"
        (read_sensors "T" "H" (failSensor SensorBlock.weight sAll)) =
      lookupK "bee_count" (read_sensors "T" "H" sAll) :=
  ⟨(read_sensors_partial_failure "T" "H" sAll SensorBlock.weight "weight_kg").1
      (by decide),
   (read_sensors_partial_failure "T" "H" sAll SensorBlock.weight "bee_count").2.1
      (by decide)⟩

/-- One transmission step visible in `HiveMonitor.transmit_data`:
an attempt on the LoRa radio, on the HTTP endpoint, or on local storage. -/
inductive TxAction where
  | attemptLora
  | attemptHttp
  | attemptStore
deriving DecidableEq, Repr

/-- Which channel delivered an item. -/
inductive Channel where
  | lora
  | http
deriving DecidableEq, Repr

/-- Final accounting of one reading after `transmit_data`:
delivered over a channel, appended to the local spool file by
`store_locally`, or lost because even the local write failed — in which case
`store_locally` logs the recorded reason carried here. -/
inductive Outcome where
  | delivered (c : Channel)
  | storedLocally
  | discarded (reason : String)
deriving DecidableEq, Repr

/-- The external collaborators and configuration of `HiveMonitor` during one
transmission: `radio` is `self.lora` (possibly `None`); the two config
lookups may raise (`KeyError`); `post` is `requests.post` returning a status
code; `write` is the local spool-file append.  Every collaborator may raise
an arbitrary exception. -/
structure World where
  radio : Option (String → Except PyErr Unit)
  loraEnabled : Except PyErr Bool
  wifiFallback : Except PyErr Bool
  post : Reading → Except PyErr Nat
  write : Reading → Except PyErr Unit

/-- `HiveMonitor.transmit_via_lora`: compress, send, `True` on success;
any exception is caught and yields `False`. -/
def transmit_via_lora (radio : String → Except PyErr Unit) (data : Reading) :
    Bool :=
  match radio (compress_sensor_data data) with
  | Except.ok _ => true
  | Except.error _ => false

/-- `HiveMonitor.transmit_via_http`: POST the full reading, succeed exactly
on status 200; any exception is caught and yields `False`. -/
def transmit_via_http (post : Reading → Except PyErr Nat) (data : Reading) :
    Bool :=
  match post (httpPayload data) with
  | Except.ok code => code == 200
  | Except.error _ => false

/-- Result of `HiveMonitor.store_locally`, which catches its own write
errors and logs `"Local storage failed: ..."`. -/
inductive StoreResult where
  | stored
  | failedLogged (msg : String)
deriving DecidableEq, Repr

/-- `HiveMonitor.store_locally`. -/
def store_locally (write : Reading → Except PyErr Unit) (data : Reading) :
    StoreResult :=
  match write data with
  | Except.ok _ => StoreResult.stored
  | Except.error e => StoreResult.failedLogged ("Local storage failed: " ++ e.msg)

/-- Accounting outcome of falling back to local storage. -/
def storeOutcome (w : World) (data : Reading) : Outcome :=
  match store_locally w.write data with
  | StoreResult.stored => Outcome.storedLocally
  | StoreResult.failedLogged m => Outcome.discarded m


/-- The WiFi-fallback tail of `transmit_data`'s `try` block, dispatching on
the result of the `wifi_fallback` config lookup: a failed lookup propagates
the exception (with the actions already performed); otherwise HTTP is
attempted when enabled and local storage is the last resort. -/
def tryHttpAux : Except PyErr Bool → World → Reading → List TxAction →
    Except (PyErr × List TxAction) (Outcome × List TxAction)
  | Except.error e, _, _, acc => Except.error (e, acc)
  | Except.ok false, w, data, acc =>
      Except.ok (storeOutcome w data, acc ++ [TxAction.attemptStore])
  | Except.ok true, w, data, acc =>
      if transmit_via_http w.post data then
        Except.ok (Outcome.delivered Channel.http, acc ++ [TxAction.attemptHttp])
      else
        Except.ok (storeOutcome w data,
          acc ++ [TxAction.attemptHttp, TxAction.attemptStore])

def tryHttp (w : World) (data : Reading) (acc : List TxAction) :
    Except (PyErr × List TxAction) (Outcome × List TxAction) :=
  tryHttpAux w.wifiFallback w data acc

/-- The `try` block of `HiveMonitor.transmit_data`, dispatching on
`self.lora` and the `lora_enabled` config lookup.  Python evaluates
`self.lora` before the config lookup (short-circuit `and`), so a missing
config key only raises when a radio is present. -/
def transmitTryAux : Option (String → Except PyErr Unit) →
    Except PyErr Bool → World → Reading →
    Except (PyErr × List TxAction) (Outcome × List TxAction)
  | none, _, w, data => tryHttp w data []
  | some _, Except.error e, _, _ => Except.error (e, [])
  | some _, Except.ok false, w, data => tryHttp w data []
  | some radio, Except.ok true, w, data =>
      if transmit_via_lora radio data then
        Except.ok (Outcome.delivered Channel.lora, [TxAction.attemptLora])
      else
        tryHttp w data [TxAction.attemptLora]

def transmit_data_try (w : World) (data : Reading) :
    Except (PyErr × List TxAction) (Outcome × List TxAction) :=
  transmitTryAux w.radio w.loraEnabled w data

/-- The `except` clause of `transmit_data`: any exception escaping the `try`
block is logged and the reading is handed to `store_locally`. -/
def transmitCatch (w : World) (data : Reading) :
    Except (PyErr × List TxAction) (Outcome × List TxAction) →
    Except PyErr (Outcome × List TxAction)
  | Except.ok res => Except.ok res
  | Except.error (_, acc) =>
      Except.ok (storeOutcome w data, acc ++ [TxAction.attemptStore])

/-- `HiveMonitor.transmit_data`: the `try` block plus the `except` clause.
The `Except` result type is the exception behaviour visible to the caller. -/
def transmit_data (w : World) (data : Reading) :
    Except PyErr (Outcome × List TxAction) :=
  transmitCatch w data (transmit_data_try w data)

/-- A world where every collaborator succeeds. -/
def wAllOk : World :=
  ⟨some (fun _ => Except.ok ()), Except.ok true, Except.ok true,
   fun _ => Except.ok 200, fun _ => Except.ok ()⟩

-- Sanity examples on concrete worlds.
example :
    transmit_data wAllOk sampleR =
      Except.ok (Outcome.delivered Channel.lora, [TxAction.attemptLora]) := rfl

example :
    transmit_data
        ⟨some (fun _ => Except.error ⟨"radio down"⟩), Except.ok true,
         Except.ok true, fun _ => Except.ok 200, fun _ => Except.ok ()⟩
        sampleR =
      Except.ok (Outcome.delivered Channel.http,
        [TxAction.attemptLora, TxAction.attemptHttp]) := rfl

example :
    transmit_data
        ⟨some (fun _ => Except.error ⟨"radio down"⟩), Except.ok true,
         Except.ok true, fun _ => Except.ok 503,
         fun _ => Except.error ⟨"disk full"⟩⟩
        sampleR =
      Except.ok (Outcome.discarded "Local storage failed: disk full",
        [TxAction.attemptLora, TxAction.attemptHttp, TxAction.attemptStore]) := rfl

theorem storeOutcome_ne_delivered (w : World) (data : Reading) (c : Channel) :
    storeOutcome w data ≠ Outcome.delivered c := by
  unfold storeOutcome
  cases store_locally w.write data <;> simp

theorem tryHttp_cases (w : World) (data : Reading) (acc : List TxAction)
    (o : Outcome) (acts : List TxAction)
    (h : tryHttp w data acc = Except.ok (o, acts)) :
    (o = Outcome.delivered Channel.http ∧
      acts = acc ++ [TxAction.attemptHttp]) ∨
    (o = storeOutcome w data ∧
      (acts = acc ++ [TxAction.attemptHttp, TxAction.attemptStore] ∨
       acts = acc ++ [TxAction.attemptStore])) := by
  unfold tryHttp at h
  rcases hwf : w.wifiFallback with e | wf <;> rw [hwf] at h
  · simp [tryHttpAux] at h
  · cases wf
    · simp only [tryHttpAux, Except.ok.injEq, Prod.mk.injEq] at h
      obtain ⟨rfl, rfl⟩ := h
      exact Or.inr ⟨rfl, Or.inr rfl⟩
    · simp only [tryHttpAux] at h
      cases hhttp : transmit_via_http w.post data <;> rw [hhttp] at h <;>
        simp at h
      · obtain ⟨rfl, rfl⟩ := h
        exact Or.inr ⟨rfl, Or.inl rfl⟩
      · obtain ⟨rfl, rfl⟩ := h
        exact Or.inl ⟨rfl, rfl⟩

theorem transmit_data_try_cases (w : World) (data : Reading) (o : Outcome)
    (acts : List TxAction)
    (h : transmit_data_try w data = Except.ok (o, acts)) :
    (o = Outcome.delivered Channel.lora ∧ acts = [TxAction.attemptLora]) ∨
    (o = Outcome.delivered Channel.http ∧
      (acts = [TxAction.attemptHttp] ∨
       acts = [TxAction.attemptLora, TxAction.attemptHttp])) ∨
    (o = storeOutcome w data ∧
      (acts = [TxAction.attemptStore] ∨
       acts = [TxAction.attemptLora, TxAction.attemptStore] ∨
       acts = [TxAction.attemptHttp, TxAction.attemptStore] ∨
       acts = [TxAction.attemptLora, TxAction.attemptHttp,
               TxAction.attemptStore])) := by
  unfold transmit_data_try at h
  rcases hr : w.radio with _ | radio <;> rw [hr] at h
  · simp only [transmitTryAux] at h
    rcases tryHttp_cases w data [] o acts h with ⟨rfl, rfl⟩ | ⟨rfl, rfl | rfl⟩
    · exact Or.inr (Or.inl ⟨rfl, Or.inl rfl⟩)
    · exact Or.inr (Or.inr ⟨rfl, Or.inr (Or.inr (Or.inl rfl))⟩)
    · exact Or.inr (Or.inr ⟨rfl, Or.inl rfl⟩)
  · rcases hle : w.loraEnabled with e | le <;> rw [hle] at h
    · simp [transmitTryAux] at h
    · cases le
      · simp only [transmitTryAux] at h
        rcases tryHttp_cases w data [] o acts h with
          ⟨rfl, rfl⟩ | ⟨rfl, rfl | rfl⟩
        · exact Or.inr (Or.inl ⟨rfl, Or.inl rfl⟩)
        · exact Or.inr (Or.inr ⟨rfl, Or.inr (Or.inr (Or.inl rfl))⟩)
        · exact Or.inr (Or.inr ⟨rfl, Or.inl rfl⟩)
      · simp only [transmitTryAux] at h
        cases hlora : transmit_via_lora radio data <;> rw [hlora] at h <;>
          simp at h
        · rcases tryHttp_cases w data [TxAction.attemptLora] o acts h with
            ⟨rfl, rfl⟩ | ⟨rfl, rfl | rfl⟩
          · exact Or.inr (Or.inl ⟨rfl, Or.inr rfl⟩)
          · exact Or.inr (Or.inr ⟨rfl, Or.inr (Or.inr (Or.inr rfl))⟩)
          · exact Or.inr (Or.inr ⟨rfl, Or.inr (Or.inl rfl)⟩)
        · obtain ⟨rfl, rfl⟩ := h
          exact Or.inl ⟨rfl, rfl⟩

theorem transmit_data_try_error_cases (w : World) (data : Reading)
    (e : PyErr) (acc : List TxAction)
    (h : transmit_data_try w data = Except.error (e, acc)) :
    acc = [] ∨ acc = [TxAction.attemptLora] := by
  unfold transmit_data_try at h
  have httpCase : ∀ acc' : List TxAction,
      tryHttp w data acc' = Except.error (e, acc) → acc = acc' := by
    intro acc' hh
    unfold tryHttp at hh
    rcases hwf : w.wifiFallback with e' | wf <;> rw [hwf] at hh
    · simp only [tryHttpAux, Except.error.injEq, Prod.mk.injEq] at hh
      exact hh.2.symm
    · cases wf
      · simp [tryHttpAux] at hh
      · simp only [tryHttpAux] at hh
        cases hhttp : transmit_via_http w.post data <;> rw [hhttp] at hh <;>
          simp at hh
  rcases hr : w.radio with _ | radio <;> rw [hr] at h
  · simp only [transmitTryAux] at h
    exact Or.inl (httpCase [] h)
  · rcases hle : w.loraEnabled with e' | le <;> rw [hle] at h
    · simp only [transmitTryAux, Except.error.injEq, Prod.mk.injEq] at h
      exact Or.inl h.2.symm
    · cases le
      · simp only [transmitTryAux] at h
        exact Or.inl (httpCase [] h)
      · simp only [transmitTryAux] at h
        cases hlora : transmit_via_lora radio data <;> rw [hlora] at h <;>
          simp at h
        exact Or.inr (httpCase [TxAction.attemptLora] h)

/-- Exhaustive shape of `transmit_data` results: delivered via LoRa after a
single attempt, delivered via HTTP (with or without a prior LoRa attempt),
or fallen back to local storage after the channel attempts made. -/
theorem transmit_data_cases (w : World) (data : Reading) (o : Outcome)
    (acts : List TxAction) (h : transmit_data w data = Except.ok (o, acts)) :
    (o = Outcome.delivered Channel.lora ∧ acts = [TxAction.attemptLora]) ∨
    (o = Outcome.delivered Channel.http ∧
      (acts = [TxAction.attemptHttp] ∨
       acts = [TxAction.attemptLora, TxAction.attemptHttp])) ∨
    (o = storeOutcome w data ∧
      (acts = [TxAction.attemptStore] ∨
       acts = [TxAction.attemptLora, TxAction.attemptStore] ∨
       acts = [TxAction.attemptHttp, TxAction.attemptStore] ∨
       acts = [TxAction.attemptLora, TxAction.attemptHttp,
               TxAction.attemptStore])) := by
  unfold transmit_data at h
  cases htry : transmit_data_try w data <;> rw [htry] at h
  case error ea =>
    obtain ⟨e, acc⟩ := ea
    simp only [transmitCatch, Except.ok.injEq, Prod.mk.injEq] at h
    obtain ⟨rfl, rfl⟩ := h
    rcases transmit_data_try_error_cases w data e acc htry with rfl | rfl
    · exact Or.inr (Or.inr ⟨rfl, Or.inl rfl⟩)
    · exact Or.inr (Or.inr ⟨rfl, Or.inr (Or.inl rfl)⟩)
  case ok res =>
    obtain ⟨o', acts'⟩ := res
    simp only [transmitCatch, Except.ok.injEq, Prod.mk.injEq] at h
    obtain ⟨rfl, rfl⟩ := h
    exact transmit_data_try_cases w data o' acts' htry

theorem transmit_data_ok (w : World) (data : Reading) :
    ∃ o acts, transmit_data w data = Except.ok (o, acts) := by
  unfold transmit_data
  cases htry : transmit_data_try w data with
  | ok res => exact ⟨res.1, res.2, rfl⟩
  | error ea =>
      exact ⟨storeOutcome w data, ea.2 ++ [TxAction.attemptStore], rfl⟩

/-- C10: `transmit_data` is total at its interface — for every reading and
every combination of collaborator behaviours (radio present or not, config
lookups raising, send/post/write calls raising arbitrary exceptions), it
returns normally with an outcome, never propagating an exception to the
monitoring loop. -/
theorem transmit_data_total (w : World) (data : Reading) :
    ∃ o acts, transmit_data w data = Except.ok (o, acts) :=
  transmit_data_ok w data

/-- C2: channels are attempted in priority order — LoRa (narrowband) first,
then HTTP — and the first success terminates the attempt: a LoRa delivery
performs no HTTP attempt and no store, an HTTP delivery performs no store,
and the attempt sequence is always an ordered subsequence of
LoRa, HTTP, store. -/
theorem transmit_channel_priority (w : World) (data : Reading) (o : Outcome)
    (acts : List TxAction)
    (h : transmit_data w data = Except.ok (o, acts)) :
    List.Sublist acts
      [TxAction.attemptLora, TxAction.attemptHttp, TxAction.attemptStore] ∧
    (o = Outcome.delivered Channel.lora → acts = [TxAction.attemptLora]) ∧
    (o = Outcome.delivered Channel.http →
      acts = [TxAction.attemptHttp] ∨
      acts = [TxAction.attemptLora, TxAction.attemptHttp]) ∧
    (∀ c, o = Outcome.delivered c → TxAction.attemptStore ∉ acts) := by
  rcases transmit_data_cases w data o acts h with
    ⟨rfl, rfl⟩ | ⟨rfl, hA⟩ | ⟨rfl, hA⟩
  · exact ⟨by decide, fun _ => rfl, by simp, fun c _ => by decide⟩
  · refine ⟨?_, by simp, fun _ => hA, ?_⟩
    · rcases hA with rfl | rfl <;> decide
    · intro c _
      rcases hA with rfl | rfl <;> decide
  · refine ⟨?_, ?_, ?_, ?_⟩
    · rcases hA with rfl | rfl | rfl | rfl <;> decide
    · intro he
      exact (storeOutcome_ne_delivered w data _ he).elim
    · intro he
      exact (storeOutcome_ne_delivered w data _ he).elim
    · intro c he
      exact (storeOutcome_ne_delivered w data _ he).elim

/-- Witness for C2: with all collaborators healthy, LoRa delivers and the
attempt sequence stops there. -/
theorem transmit_channel_priority_witness :
    (Outcome.delivered Channel.lora = Outcome.delivered Channel.lora →
      [TxAction.attemptLora] = [TxAction.attemptLora]) ∧
    List.Sublist [TxAction.attemptLora]
      [TxAction.attemptLora, TxAction.attemptHttp, TxAction.attemptStore] :=
  ⟨(transmit_channel_priority wAllOk sampleR (Outcome.delivered Channel.lora)
      [TxAction.attemptLora] rfl).2.1,
   (transmit_channel_priority wAllOk sampleR (Outcome.delivered Channel.lora)
      [TxAction.attemptLora] rfl).1⟩

/-- An envelope far above any narrowband payload ceiling. -/
def oversizedReading : Reading := [("temperature_c", Val.num (10 ^ 300))]

/-- C4 counterexample: `transmit_via_lora` enforces no payload-size ceiling
and has no `rejected_too_large` outcome — on an envelope of more than 255
bytes (beyond every LoRaWAN payload limit) whose send goes through, it
reports plain success, and the coordinator treats the item as delivered by
the narrowband channel instead of falling through to the next channel. -/
theorem lora_no_size_ceiling_cex :
    255 < (compress_sensor_data oversizedReading).length ∧
    transmit_via_lora (fun _ => Except.ok ()) oversizedReading = true ∧
    transmit_data
        ⟨some (fun _ => Except.ok ()), Except.ok true, Except.ok true,
         fun _ => Except.ok 200, fun _ => Except.ok ()⟩
        oversizedReading =
      Except.ok (Outcome.delivered Channel.lora, [TxAction.attemptLora]) :=
  ⟨by set_option maxRecDepth 4000 in decide, rfl, rfl⟩

/-- C4 amended: the narrowband attempt is size-agnostic and two-valued — it
returns `True` whenever the underlying send succeeds, whatever the envelope
size, and the single generic `False` for any send failure, after which the
coordinator falls through to the HTTP channel whenever WiFi fallback is
enabled. -/
theorem lora_size_agnostic (data : Reading) (e : PyErr) :
    transmit_via_lora (fun _ => Except.ok ()) data = true ∧
    transmit_via_lora (fun _ => Except.error e) data = false ∧
    (∀ (post : Reading → Except PyErr Nat) (wr : Reading → Except PyErr Unit)
        (o : Outcome) (acts : List TxAction),
      transmit_data
          ⟨some (fun _ => Except.error e), Except.ok true, Except.ok true,
           post, wr⟩ data =
        Except.ok (o, acts) →
      TxAction.attemptHttp ∈ acts) := by
  refine ⟨rfl, rfl, ?_⟩
  intro post wr o acts h
  have hstep : transmit_data
      ⟨some (fun _ => Except.error e), Except.ok true, Except.ok true,
       post, wr⟩ data =
      transmitCatch
        ⟨some (fun _ => Except.error e), Except.ok true, Except.ok true,
         post, wr⟩ data
        (tryHttp
          ⟨some (fun _ => Except.error e), Except.ok true, Except.ok true,
           post, wr⟩ data [TxAction.attemptLora]) := rfl
  rw [hstep] at h
  unfold tryHttp at h
  cases hhttp : transmit_via_http post data <;>
    simp only [tryHttpAux] at h <;> rw [hhttp] at h <;> simp at h
  · obtain ⟨-, rfl⟩ := h
    decide
  · obtain ⟨-, rfl⟩ := h
    decide

/-- Witness for C4 amended: a concrete failing radio falls through to a
healthy HTTP channel. -/
theorem lora_size_agnostic_witness :
    TxAction.attemptHttp ∈ [TxAction.attemptLora, TxAction.attemptHttp] :=
  (lora_size_agnostic sampleR ⟨"radio down"⟩).2.2
    (fun _ => Except.ok 200) (fun _ => Except.ok ())
    (Outcome.delivered Channel.http)
    [TxAction.attemptLora, TxAction.attemptHttp] rfl

/-- The state shared by the monitoring loop and the transmitter:
`buffer` is `self.sensor_buffer`; `spool` is the accumulated contents of the
`local_data_*.json` files written by `store_locally`, in append order. -/
structure SysState where
  buffer : List Reading
  spool : List Reading
deriving DecidableEq

/-- The flush loop body `for data in self.sensor_buffer: transmit_data(data)`:
one transmission per buffered reading, in buffer order. -/
def flushResults (w : World) (buf : List Reading) :
    List (Reading × Except PyErr (Outcome × List TxAction)) :=
  buf.map (fun r => (r, transmit_data w r))

/-- The readings a flush appends to the spool file: exactly those whose
transmission fell back to a successful `store_locally` write. -/
def storedOf : Reading × Except PyErr (Outcome × List TxAction) → Option Reading
  | (r, Except.ok (Outcome.storedLocally, _)) => some r
  | _ => none

/-- One flush cycle of `run_monitoring_loop`: transmit every buffered
reading, append the locally-stored ones to the spool file, clear the buffer.
The spool is never read — `store_locally` only appends, and no code path
replays it. -/
def flushCycle (w : World) (s : SysState) :
    SysState × List (Reading × Except PyErr (Outcome × List TxAction)) :=
  let results := flushResults w s.buffer
  (⟨[], s.spool ++ results.filterMap storedOf⟩, results)

/-- C1: every reading in the buffer at flush time is accounted for by the
flush cycle that drains it — it appears in the flush results and is either
delivered over some channel, present in the local spool afterwards, or
discarded with the recorded storage-failure reason. -/
theorem flush_accounts_every_reading (w : World) (s : SysState) (r : Reading)
    (hr : r ∈ s.buffer) :
    ∃ o acts, (r, Except.ok (o, acts)) ∈ (flushCycle w s).2 ∧
      ((∃ c, o = Outcome.delivered c) ∨
       (o = Outcome.storedLocally ∧ r ∈ (flushCycle w s).1.spool) ∨
       (∃ reason, o = Outcome.discarded reason)) := by
  obtain ⟨o, acts, hts⟩ := transmit_data_ok w r
  refine ⟨o, acts, ?_, ?_⟩
  · show (r, Except.ok (o, acts)) ∈ flushResults w s.buffer
    rw [← hts]
    exact List.mem_map.2 ⟨r, hr, rfl⟩
  · cases o with
    | delivered c => exact Or.inl ⟨c, rfl⟩
    | storedLocally =>
        refine Or.inr (Or.inl ⟨rfl, ?_⟩)
        show r ∈ s.spool ++ (flushResults w s.buffer).filterMap storedOf
        refine List.mem_append.2 (Or.inr (List.mem_filterMap.2
          ⟨(r, transmit_data w r), List.mem_map.2 ⟨r, hr, rfl⟩, ?_⟩))
        rw [hts]
        rfl
    | discarded reason => exact Or.inr (Or.inr ⟨reason, rfl⟩)

/-- Witness for C1: a concrete buffered reading accounted for by a flush. -/
theorem flush_accounts_every_reading_witness :
    ∃ o acts,
      (sampleR, Except.ok (o, acts)) ∈
        (flushCycle wAllOk ⟨[sampleR], []⟩).2 ∧
      ((∃ c, o = Outcome.delivered c) ∨
       (o = Outcome.storedLocally ∧
         sampleR ∈ (flushCycle wAllOk ⟨[sampleR], []⟩).1.spool) ∨
       (∃ reason, o = Outcome.discarded reason)) :=
  flush_accounts_every_reading wAllOk ⟨[sampleR], []⟩ sampleR
    (List.mem_singleton.2 rfl)

/-- An older reading already written to the spool file by a past failed
flush. -/
def rOld : Reading := [("bee_count", Val.num 7)]

/-- A newer reading in the in-memory buffer. -/
def rNew : Reading := [("bee_count", Val.num 9)]

/-- C3 counterexample: the flush cycle never replays the spool.  With one
older undelivered entry in the spool and one newer reading in the buffer,
the flush transmits (and delivers) the newer batch while the older spool
entry is never attempted and is still sitting undelivered in the spool
afterwards. -/
theorem spool_never_replayed_cex :
    (SysState.mk [rNew] [rOld]).spool ≠ [] ∧
    (flushCycle wAllOk ⟨[rNew], [rOld]⟩).1.spool = [rOld] ∧
    (rNew, Except.ok (Outcome.delivered Channel.lora, [TxAction.attemptLora]))
      ∈ (flushCycle wAllOk ⟨[rNew], [rOld]⟩).2 :=
  ⟨by decide, rfl, List.mem_singleton.2 rfl⟩

/-- C3 amended: in a flush cycle only the in-memory buffer is transmitted —
the attempts are exactly the buffered readings in buffer order, previously
spooled entries are never attempted and the spool is only appended to
(store fallbacks of this cycle), and the buffer is cleared. -/
theorem flush_ignores_spool (w : World) (s : SysState) :
    (flushCycle w s).1.buffer = [] ∧
    (flushCycle w s).2.map Prod.fst = s.buffer ∧
    (∃ stored, (flushCycle w s).1.spool = s.spool ++ stored) := by
  refine ⟨rfl, ?_, ⟨(flushResults w s.buffer).filterMap storedOf, rfl⟩⟩
  show (flushResults w s.buffer).map Prod.fst = s.buffer
  unfold flushResults
  rw [List.map_map]
  exact List.map_id _

/-- One tick of `run_monitoring_loop`: the result of `read_sensors` (which
the loop guards even though `read_sensors` catches internally), the
`interval_minutes` config lookup, and the current time in seconds. -/
structure Tick where
  readRes : Except PyErr Reading
  cfg : Except PyErr Nat
  now : Nat

/-- One iteration of the `while True` body, `try`/`except` included: any
exception is caught, logged, and answered with the longer 60-second sleep;
a completed iteration sleeps 30 seconds.  Returns (state, last_transmission,
sleep seconds). -/
def loopIteration (w : World) (s : SysState) (lastTx : Nat) (t : Tick) :
    SysState × Nat × Nat :=
  match t.readRes with
  | Except.error _ => (s, lastTx, 60)
  | Except.ok reading =>
      match t.cfg with
      | Except.error _ => (⟨s.buffer ++ [reading], s.spool⟩, lastTx, 60)
      | Except.ok m =>
          if m * 60 ≤ t.now - lastTx then
            ((flushCycle w ⟨s.buffer ++ [reading], s.spool⟩).1, t.now, 30)
          else
            (⟨s.buffer ++ [reading], s.spool⟩, lastTx, 30)

/-- `run_monitoring_loop` over a finite schedule of ticks: every iteration
runs to completion and the loop continues with the next tick. -/
def runLoop (w : World) : SysState → Nat → List Tick → SysState × Nat
  | s, lastTx, [] => (s, lastTx)
  | s, lastTx, t :: ts =>
      runLoop w (loopIteration w s lastTx t).1 (loopIteration w s lastTx t).2.1 ts

/-- C8: no error inside a single iteration terminates the monitoring loop.
Every iteration yields a successor state and the loop proceeds to the
remaining ticks from it; a failed `read_sensors` call is caught, leaves the
state untouched and answers the longer error sleep; a failure after the
buffer append (the config lookup) is caught, keeps the appended reading and
answers the error sleep. -/
theorem loop_survives_iteration_errors (w : World) (s : SysState)
    (lastTx : Nat) (t : Tick) (ts : List Tick) :
    (∃ s' lastTx' sleep, loopIteration w s lastTx t = (s', lastTx', sleep) ∧
      runLoop w s lastTx (t :: ts) = runLoop w s' lastTx' ts) ∧
    (∀ e, t.readRes = Except.error e →
      loopIteration w s lastTx t = (s, lastTx, 60)) ∧
    (∀ e reading, t.readRes = Except.ok reading → t.cfg = Except.error e →
      loopIteration w s lastTx t =
        (⟨s.buffer ++ [reading], s.spool⟩, lastTx, 60)) := by
  refine ⟨⟨(loopIteration w s lastTx t).1, (loopIteration w s lastTx t).2.1,
    (loopIteration w s lastTx t).2.2, rfl, rfl⟩, ?_, ?_⟩
  · intro e he
    unfold loopIteration
    rw [he]
  · intro e reading hre hcfg
    unfold loopIteration
    rw [hre, hcfg]

/-- Witness for C8: a fatal sensor error on a concrete tick is absorbed —
the iteration returns normally with the state unchanged and the longer
sleep. -/
theorem loop_survives_iteration_errors_witness :
    loopIteration wAllOk ⟨[], []⟩ 0
        ⟨Except.error ⟨"hardware unavailable"⟩, Except.ok 5, 0⟩ =
      (⟨[], []⟩, 0, 60) :=
  (loop_survives_iteration_errors wAllOk ⟨[], []⟩ 0
      ⟨Except.error ⟨"hardware unavailable"⟩, Except.ok 5, 0⟩ []).2.1
    ⟨"hardware unavailable"⟩ rfl
